import Mathlib

/-!
Verification of the CRUD service and reactive product facade of this
repository (`qim-wsk`), as a shallow embedding in Lean 4.

The embedding mirrors:
* `projects/lib-qore/src/patterns/crud-consumer.pattern.ts` — the declared
  `CrudConsumerResponse` interface;
* `projects/lib-qore/src/abstracts/crud.service.ts` — `CrudMeta`, `CrudService`
  with its `create` / `read` / `update` / `delete` operations, the `url`
  helper, `createResponse`, and `request`;
* `src/app/pages/product/product.facade.ts` — `ProductMutation` and
  `ProductFacade.compute`.

JavaScript's nullable values (`P | null`) become `Option P`; an awaited HTTP
request becomes an explicit `HttpOutcome` oracle parameter (the resolved body,
itself possibly `null`, or the rejection); the injected optional logger becomes
a `hasLogger` flag, and emitted log lines are collected in a list so that their
independence from the returned envelope can be stated.  Runtime request bodies
(TypeScript erases `Omit`/`Partial` at runtime) are modelled as association
lists of JavaScript primitive values.
-/

/-- JavaScript primitive value appearing in a runtime request body. -/
inductive JsPrim where
  | str (s : String)
  | num (n : Int)
  | boolean (b : Bool)
  | null
deriving DecidableEq, Repr

/-- A runtime JavaScript object as sent on the wire: TypeScript's `Omit` and
`Partial` are erased at runtime, so a body is just a list of key/value pairs. -/
abbrev JsRecord := List (String × JsPrim)

/-- Identifier type `DTO["id"]` — at runtime a string or a number. -/
inductive EntityId where
  | num (n : Int)
  | str (s : String)
deriving DecidableEq, Repr

/-- Template-literal rendering `${id}` of an identifier. -/
def EntityId.render : EntityId → String
  | .num n => toString n
  | .str s => s

/-- Rendering of a possibly-undefined identifier inside a template literal
(JavaScript renders `undefined` for a missing value). -/
def renderOptId : Option EntityId → String
  | none => "undefined"
  | some i => i.render

/-- `WithUniqueId` (types/generics.ts): any record type carrying a unique
identifier field; otherwise opaque to the CRUD layer. -/
class WithUniqueId (DTO : Type) where
  uid : DTO → EntityId

/-- The `status` tag of an envelope: `'success' | 'error'`. -/
inductive CrudStatus where
  | success
  | error
deriving DecidableEq, Repr

/-- The `CrudConsumerResponse<P>` interface as DECLARED in
crud-consumer.pattern.ts (lines 52–56): it has exactly the three fields
`status`, `message`, `payload` — no `code` field. -/
structure CrudConsumerResponse (P : Type) where
  status : CrudStatus
  message : String
  payload : Option P
deriving DecidableEq, Repr

/-- The shape of the object actually BUILT by `CrudService.createResponse`
in crud.service.ts: `{ status, code, message, payload }`, carrying the
stable machine-oriented `code` in addition to the declared fields. -/
structure CrudBuiltResponse (P : Type) where
  status : CrudStatus
  code : String
  message : String
  payload : Option P
deriving DecidableEq, Repr

/-- View of a built response at the declared interface type (forgetting the
`code` field, which the declared interface does not have). -/
def CrudBuiltResponse.toDeclared {P : Type} (r : CrudBuiltResponse P) :
    CrudConsumerResponse P :=
  { status := r.status, message := r.message, payload := r.payload }

/-- `CrudMessageContext`: context used to build CRUD messages. -/
structure CrudMessageContext where
  entity : Option String := none
  id : Option EntityId := none

/-- `CrudMetaMessage`: a stable code plus a human-oriented message. -/
structure CrudMetaMessage where
  code : String
  message : String
deriving DecidableEq, Repr

/-- `CrudMetaPair`: success and error metadata for one CRUD operation. -/
structure CrudMetaPair where
  success : CrudMetaMessage
  error : CrudMetaMessage
deriving DecidableEq, Repr

/-- `CrudMeta.success.create`. -/
def CrudMeta.success.create (ctx : CrudMessageContext) : CrudMetaMessage :=
  { code := "CRUD.CREATE.SUCCESS",
    message := "Successfully created " ++ ctx.entity.getD "entity" }

/-- `CrudMeta.success.read`. -/
def CrudMeta.success.read (ctx : CrudMessageContext) : CrudMetaMessage :=
  { code := "CRUD.READ.SUCCESS",
    message := "Successfully read " ++ ctx.entity.getD "entity"
      ++ " with id: " ++ renderOptId ctx.id }

/-- `CrudMeta.success.readAll`. -/
def CrudMeta.success.readAll (ctx : CrudMessageContext) : CrudMetaMessage :=
  { code := "CRUD.READ_ALL.SUCCESS",
    message := "Successfully read " ++ ctx.entity.getD "entities" }

/-- `CrudMeta.success.update`. -/
def CrudMeta.success.update (ctx : CrudMessageContext) : CrudMetaMessage :=
  { code := "CRUD.UPDATE.SUCCESS",
    message := "Successfully updated " ++ ctx.entity.getD "entity"
      ++ " with id: " ++ renderOptId ctx.id }

/-- `CrudMeta.success.delete`. -/
def CrudMeta.success.delete (ctx : CrudMessageContext) : CrudMetaMessage :=
  { code := "CRUD.DELETE.SUCCESS",
    message := "Successfully deleted " ++ ctx.entity.getD "entity"
      ++ " with id: " ++ renderOptId ctx.id }

/-- `CrudMeta.error.create`. -/
def CrudMeta.error.create (ctx : CrudMessageContext) : CrudMetaMessage :=
  { code := "CRUD.CREATE.ERROR",
    message := "Error creating " ++ ctx.entity.getD "entity" }

/-- `CrudMeta.error.read`. -/
def CrudMeta.error.read (ctx : CrudMessageContext) : CrudMetaMessage :=
  { code := "CRUD.READ.ERROR",
    message := "Error reading " ++ ctx.entity.getD "entity"
      ++ " with id: " ++ renderOptId ctx.id }

/-- `CrudMeta.error.readAll`. -/
def CrudMeta.error.readAll (ctx : CrudMessageContext) : CrudMetaMessage :=
  { code := "CRUD.READ_ALL.ERROR",
    message := "Error reading " ++ ctx.entity.getD "entities" }

/-- `CrudMeta.error.update`. -/
def CrudMeta.error.update (ctx : CrudMessageContext) : CrudMetaMessage :=
  { code := "CRUD.UPDATE.ERROR",
    message := "Error updating " ++ ctx.entity.getD "entity"
      ++ " with id: " ++ renderOptId ctx.id }

/-- `CrudMeta.error.delete`. -/
def CrudMeta.error.delete (ctx : CrudMessageContext) : CrudMetaMessage :=
  { code := "CRUD.DELETE.ERROR",
    message := "Error deleting " ++ ctx.entity.getD "entity"
      ++ " with id: " ++ renderOptId ctx.id }

/-- HTTP verbs used by the service. -/
inductive HttpMethod where
  | get
  | post
  | put
  | delete
deriving DecidableEq, Repr

/-- The one outgoing HTTP request a CRUD call issues: verb, URL, and (for
POST/PUT) the runtime body forwarded to `HttpClient`. -/
structure HttpRequest where
  method : HttpMethod
  url : String
  body : Option JsRecord
deriving DecidableEq, Repr

/-- Outcome of awaiting `firstValueFrom(obs$)`: either the resolved body —
itself possibly `null`, since nothing stops the backend from answering an
empty/`null` JSON body — or a rejection carrying an error message. -/
inductive HttpOutcome (T : Type) where
  | ok (body : Option T)
  | err (message : String)
deriving DecidableEq, Repr

/-- `JSON.stringify(result)` as it appears in the success log line, given a
rendering for the body type (`null` stringifies to "null"). -/
def jsonStringify {T : Type} (toJson : T → String) : Option T → String
  | none => "null"
  | some t => toJson t

/-- Configuration of a concrete `CrudService`: the abstract `endpoint`, the
overridable `entityName`, and whether the optional `APPLICATION_LOGGER` was
injected (`inject(APPLICATION_LOGGER, { optional: true })` may yield null). -/
structure CrudServiceCfg where
  endpoint : String
  entityName : String := "entity"
  hasLogger : Bool
deriving DecidableEq, Repr

/-- `this.logger?.log?.(msg)` — emits the line only when a logger is present;
a defensive no-op otherwise. -/
def CrudServiceCfg.emit (cfg : CrudServiceCfg) (msg : String) : List String :=
  if cfg.hasLogger then [msg] else []

/-- `CrudService.url`: builds a REST URL from the base endpoint and an
optional identifier (`id === undefined || id === null` selects the bare
endpoint; both absent values are `none` here). -/
def CrudService.url (endpoint : String) : Option EntityId → String
  | none => endpoint
  | some id => endpoint ++ "/" ++ id.render

/-- `CrudService.createResponse`: builds the normalized envelope
`{ status, code, message, payload }` and logs one line.  Returns the envelope
together with the emitted log lines. -/
def CrudService.createResponse {P : Type} (cfg : CrudServiceCfg)
    (status : CrudStatus) (code : String) (message : String)
    (payload : Option P) : CrudBuiltResponse P × List String :=
  ({ status := status, code := code, message := message, payload := payload },
    cfg.emit ("[CrudService] Response created with status: "
      ++ (if status = .success then "success" else "error")
      ++ ", code: " ++ code ++ ", message: " ++ message))

/-- `CrudService.request`: awaits the request and maps its outcome to an
envelope.  The `try`/`catch` of the source is total here: every outcome —
resolution or rejection — produces an envelope, so the promise never rejects.
On resolution the body (possibly `null`) is passed through as the payload; on
rejection the payload is `null` and the error metadata is used. -/
def CrudService.request {T : Type} (cfg : CrudServiceCfg)
    (toJson : T → String) (outcome : HttpOutcome T) (meta : CrudMetaPair) :
    CrudBuiltResponse T × List String :=
  match outcome with
  | .ok body =>
      let okLog := cfg.emit ("[CrudService] " ++ meta.success.message
        ++ " - Payload: " ++ jsonStringify toJson body ++ " \x7d")
      let built := CrudService.createResponse cfg .success
        meta.success.code meta.success.message body
      (built.1, okLog ++ built.2)
  | .err errMsg =>
      let errLog := cfg.emit ("[CrudService] " ++ meta.error.message
        ++ " - " ++ errMsg)
      let built := CrudService.createResponse cfg .error
        meta.error.code meta.error.message (none : Option T)
      (built.1, errLog ++ built.2)

/-- One observed run of a CRUD operation: the HTTP request it issued, the
envelope its promise resolved to, and the log lines it emitted. -/
structure OpRun (T : Type) where
  req : HttpRequest
  response : CrudBuiltResponse T
  logs : List String
deriving DecidableEq, Repr

/-- `CrudService.create`: POST `data` (runtime body forwarded verbatim) to the
base endpoint; outcome mapped through `request` with the `create` metadata. -/
def CrudService.create {DTO : Type} (cfg : CrudServiceCfg)
    (toJson : DTO → String) (data : JsRecord) (outcome : HttpOutcome DTO) :
    OpRun DTO :=
  let pre := cfg.emit ("[CrudService] Creating " ++ cfg.entityName)
  let run := CrudService.request cfg toJson outcome
    { success := CrudMeta.success.create { entity := some cfg.entityName },
      error := CrudMeta.error.create { entity := some cfg.entityName } }
  let req : HttpRequest :=
    { method := .post, url := CrudService.url cfg.endpoint none,
      body := some data }
  { req := req, response := run.1, logs := pre ++ run.2 }

/-- Result of `CrudService.read`: the single-entity overload resolves to a
single-DTO envelope, the collection overload to a DTO-list envelope. -/
inductive ReadRun (DTO : Type) where
  | one (run : OpRun DTO)
  | all (run : OpRun (List DTO))
deriving DecidableEq, Repr

/-- `CrudService.read`: dispatches on `target !== undefined && target !== null`
(both absent values are `none` here).  A present identifier — however falsy —
issues GET `endpoint/target` with the single-read metadata; an absent one
issues GET `endpoint` with the read-all metadata.  The two oracles stand for
the two possible HTTP calls; only the one actually issued is consulted. -/
def CrudService.read {DTO : Type} (cfg : CrudServiceCfg)
    (toJson : DTO → String) (toJsonAll : List DTO → String)
    (target : Option EntityId) (oneOutcome : HttpOutcome DTO)
    (allOutcome : HttpOutcome (List DTO)) : ReadRun DTO :=
  match target with
  | some id =>
      let pre := cfg.emit ("[CrudService] Reading " ++ cfg.entityName
        ++ " with id: " ++ id.render)
      let run := CrudService.request cfg toJson oneOutcome
        { success := CrudMeta.success.read
            { entity := some cfg.entityName, id := some id },
          error := CrudMeta.error.read
            { entity := some cfg.entityName, id := some id } }
      let req : HttpRequest :=
        { method := .get, url := CrudService.url cfg.endpoint (some id),
          body := none }
      .one { req := req, response := run.1, logs := pre ++ run.2 }
  | none =>
      let pre := cfg.emit ("[CrudService] Reading all " ++ cfg.entityName)
      let run := CrudService.request cfg toJsonAll allOutcome
        { success := CrudMeta.success.readAll { entity := some cfg.entityName },
          error := CrudMeta.error.readAll { entity := some cfg.entityName } }
      let req : HttpRequest :=
        { method := .get, url := CrudService.url cfg.endpoint none,
          body := none }
      .all { req := req, response := run.1, logs := pre ++ run.2 }

/-- `CrudService.update`: PUT to `endpoint/target.id`; the `data` argument is
forwarded to `HttpClient.put` verbatim as the body (TypeScript's
`Partial<Omit<DTO, "id">>` is a compile-time restriction only). -/
def CrudService.update {DTO : Type} [WithUniqueId DTO] (cfg : CrudServiceCfg)
    (toJson : DTO → String) (target : DTO) (data : JsRecord)
    (outcome : HttpOutcome DTO) : OpRun DTO :=
  let tid := WithUniqueId.uid target
  let pre := cfg.emit ("[CrudService] Updating " ++ cfg.entityName
    ++ " with id: " ++ tid.render)
  let run := CrudService.request cfg toJson outcome
    { success := CrudMeta.success.update
        { entity := some cfg.entityName, id := some tid },
      error := CrudMeta.error.update
        { entity := some cfg.entityName, id := some tid } }
  let req : HttpRequest :=
    { method := .put, url := CrudService.url cfg.endpoint (some tid),
      body := some data }
  { req := req, response := run.1, logs := pre ++ run.2 }

/-- `CrudService.delete`: DELETE `endpoint/target.id`; no body. -/
def CrudService.delete {DTO : Type} [WithUniqueId DTO] (cfg : CrudServiceCfg)
    (toJson : DTO → String) (target : DTO) (outcome : HttpOutcome DTO) :
    OpRun DTO :=
  let tid := WithUniqueId.uid target
  let pre := cfg.emit ("[CrudService] Deleting " ++ cfg.entityName
    ++ " with id: " ++ tid.render)
  let run := CrudService.request cfg toJson outcome
    { success := CrudMeta.success.delete
        { entity := some cfg.entityName, id := some tid },
      error := CrudMeta.error.delete
        { entity := some cfg.entityName, id := some tid } }
  let req : HttpRequest :=
    { method := .delete, url := CrudService.url cfg.endpoint (some tid),
      body := none }
  { req := req, response := run.1, logs := pre ++ run.2 }

/-- Projection: the envelope a `read` call resolved to has this status. -/
def ReadRun.respStatus {DTO : Type} : ReadRun DTO → CrudStatus
  | .one run => run.response.status
  | .all run => run.response.status

/-- Projection: the stable code of the envelope a `read` call resolved to. -/
def ReadRun.respCode {DTO : Type} : ReadRun DTO → String
  | .one run => run.response.code
  | .all run => run.response.code

/-- Projection: whether the payload of a `read` envelope is `null`. -/
def ReadRun.payloadIsNull {DTO : Type} : ReadRun DTO → Bool
  | .one run => run.response.payload.isNone
  | .all run => run.response.payload.isNone

/-- Projection: the HTTP request a `read` call issued. -/
def ReadRun.req {DTO : Type} : ReadRun DTO → HttpRequest
  | .one run => run.req
  | .all run => run.req

/-- Projection: the log lines a `read` call emitted. -/
def ReadRun.logs {DTO : Type} : ReadRun DTO → List String
  | .one run => run.logs
  | .all run => run.logs

/-- Whether a `read` call took the collection branch (`read()`). -/
def ReadRun.isAll {DTO : Type} : ReadRun DTO → Bool
  | .one _ => false
  | .all _ => true

/-- Modelled from the spec: `core/dto/product.dto.ts` is not among the given
source files.  Per the spec's data model ("any record type carrying a unique
identifier field") and its worked example `{id: 1, name: "A"}`, a product is
an entity with a numeric unique id and a name. -/
structure ProductDTO where
  id : Int
  name : String
deriving DecidableEq, Repr

instance : WithUniqueId ProductDTO := ⟨fun p => .num p.id⟩

/-- `ProductMutation` (product.facade.ts): the tagged union of mutations the
product facade accepts. -/
inductive ProductMutation where
  | READ_ALL_PRODUCT
  | ADD_PRODUCT (payload : ProductDTO)
  | REMOVE_PRODUCT (payload : ProductDTO)
  | UPDATE_PRODUCT (payload : ProductDTO)
deriving DecidableEq, Repr

/-- `mutation.type` — the tag string of a mutation. -/
def ProductMutation.tag : ProductMutation → String
  | .READ_ALL_PRODUCT => "READ_ALL_PRODUCT"
  | .ADD_PRODUCT _ => "ADD_PRODUCT"
  | .REMOVE_PRODUCT _ => "REMOVE_PRODUCT"
  | .UPDATE_PRODUCT _ => "UPDATE_PRODUCT"

/-- The CRUD calls `compute` can issue on the injected `ProductService`. -/
inductive CrudCall where
  | readAll
  | deleteOne (target : ProductDTO)
deriving DecidableEq, Repr

/-- Oracle for the injected `ProductService` (extends `CrudService`): the
envelope each awaited operation of it resolves to.  `compute` only branches on
those envelopes, so they fully determine its behaviour. -/
structure ProductServiceEnv where
  readAllResp : CrudBuiltResponse (List ProductDTO)
  deleteResp : ProductDTO → CrudBuiltResponse ProductDTO

/-- What one `compute` dispatch observably does: the value of the `data`
signal afterwards, the `console.warn` lines it printed, and the CRUD
operations it invoked. -/
structure ComputeEffects where
  data : List ProductDTO
  warnings : List String
  crudCalls : List CrudCall
deriving DecidableEq, Repr

/-- Initial value of the facade's signal: `data = signal<ProductDTO[]>([])`. -/
def ProductFacade.initialData : List ProductDTO := []

/-- `ProductFacade.compute`: a switch over `mutation.type`.
`READ_ALL_PRODUCT` awaits `productService.read()` and sets the signal to
`responseRead.payload ?? []` unconditionally.  `REMOVE_PRODUCT` awaits
`productService.delete(mutation.payload)` and, only if the envelope's status
is success, filters out every product whose id equals the payload's id.  Any
other tag falls to `default`, which only warns. -/
def ProductFacade.compute (env : ProductServiceEnv) (data : List ProductDTO)
    (mutation : ProductMutation) : ComputeEffects :=
  match mutation with
  | .READ_ALL_PRODUCT =>
      let responseRead := env.readAllResp
      { data := responseRead.payload.getD [],
        warnings := [], crudCalls := [.readAll] }
  | .REMOVE_PRODUCT payload =>
      let responseDelete := env.deleteResp payload
      if responseDelete.status = .success then
        { data := data.filter (fun p => p.id != payload.id),
          warnings := [], crudCalls := [.deleteOne payload] }
      else
        { data := data, warnings := [], crudCalls := [.deleteOne payload] }
  | other =>
      { data := data,
        warnings := ["Unknown mutation type: " ++ other.tag],
        crudCalls := [] }

/-- Sample configuration of a concrete product service (endpoint and entity
name as a `ProductService extends CrudService<ProductDTO>` would configure
them), with a logger injected. -/
def sampleCfg : CrudServiceCfg :=
  { endpoint := "api/products", entityName := "product", hasLogger := true }

/-- A rendering of a product for the `JSON.stringify` log argument. -/
def productToJson : ProductDTO → String :=
  fun p => "Product(" ++ toString p.id ++ ", " ++ p.name ++ ")"

/-- A rendering of a product list for the `JSON.stringify` log argument. -/
def productListToJson : List ProductDTO → String :=
  fun l => String.intercalate ", " (l.map productToJson)

/-- The metadata pair `read()` uses on its collection branch for the sample
product service. -/
def productReadAllMeta : CrudMetaPair :=
  { success := CrudMeta.success.readAll { entity := some "product" },
    error := CrudMeta.error.readAll { entity := some "product" } }

/-- The envelope `productService.read()` resolves to when the underlying
request rejects: exactly what `request` produces from the rejection and the
collection-read metadata. -/
def readAllErrorEnvelope : CrudBuiltResponse (List ProductDTO) :=
  (CrudService.request sampleCfg productListToJson
    (.err "Network error") productReadAllMeta).1

/-- A concrete service environment for the facade: `read()` fails (network
error), `delete(p)` succeeds and echoes the deleted entity. -/
def sampleEnv : ProductServiceEnv :=
  { readAllResp := readAllErrorEnvelope,
    deleteResp := fun p =>
      (CrudService.delete sampleCfg productToJson p (.ok (some p))).response }

/-- A concrete service environment in which `delete` fails as well. -/
def sampleEnvDeleteError : ProductServiceEnv :=
  { readAllResp := readAllErrorEnvelope,
    deleteResp := fun p =>
      (CrudService.delete sampleCfg productToJson p (.err "Network error")).response }

/-- The observable part of an operation run apart from logging: the request
issued and the envelope resolved to, with the log lines erased. -/
def OpRun.withoutLogs {T : Type} (r : OpRun T) : OpRun T :=
  { r with logs := [] }

/-- The observable part of a read run apart from logging. -/
def ReadRun.withoutLogs {DTO : Type} : ReadRun DTO → ReadRun DTO
  | .one run => .one { run with logs := [] }
  | .all run => .all { run with logs := [] }

/-- C1: For every CRUD operation (create, read, read(id), update, delete), if
the underlying HTTP request rejects, the operation still returns an envelope
(the embedding of each operation is a total function, so no exception escapes
the public surface) whose status is error, whose payload is null, and whose
code is the stable per-operation error code — CRUD.CREATE.ERROR,
CRUD.READ_ALL.ERROR, CRUD.READ.ERROR, CRUD.UPDATE.ERROR, CRUD.DELETE.ERROR. -/
theorem C1_failure_yields_error_envelope {DTO : Type} [WithUniqueId DTO]
    (cfg : CrudServiceCfg) (toJson : DTO → String)
    (toJsonAll : List DTO → String) (data : JsRecord) (target : DTO)
    (id : EntityId) (msg : String) (oneOutcome : HttpOutcome DTO)
    (allOutcome : HttpOutcome (List DTO)) :
    (CrudService.create cfg toJson data (.err msg)).response =
      { status := .error, code := "CRUD.CREATE.ERROR",
        message := "Error creating " ++ cfg.entityName, payload := none } ∧
    (CrudService.read cfg toJson toJsonAll none oneOutcome (.err msg)).respStatus
      = .error ∧
    (CrudService.read cfg toJson toJsonAll none oneOutcome (.err msg)).respCode
      = "CRUD.READ_ALL.ERROR" ∧
    (CrudService.read cfg toJson toJsonAll none oneOutcome (.err msg)).payloadIsNull
      = true ∧
    (CrudService.read cfg toJson toJsonAll (some id) (.err msg) allOutcome).respStatus
      = .error ∧
    (CrudService.read cfg toJson toJsonAll (some id) (.err msg) allOutcome).respCode
      = "CRUD.READ.ERROR" ∧
    (CrudService.read cfg toJson toJsonAll (some id) (.err msg) allOutcome).payloadIsNull
      = true ∧
    (CrudService.update cfg toJson target data (.err msg)).response.status = .error ∧
    (CrudService.update cfg toJson target data (.err msg)).response.code
      = "CRUD.UPDATE.ERROR" ∧
    (CrudService.update cfg toJson target data (.err msg)).response.payload = none ∧
    (CrudService.delete cfg toJson target (.err msg)).response.status = .error ∧
    (CrudService.delete cfg toJson target (.err msg)).response.code
      = "CRUD.DELETE.ERROR" ∧
    (CrudService.delete cfg toJson target (.err msg)).response.payload = none :=
  ⟨rfl, rfl, rfl, rfl, rfl, rfl, rfl, rfl, rfl, rfl, rfl, rfl, rfl⟩

/-- C3: CrudService.read dispatches on presence of a defined, non-null
argument (both absent values are `none` in the embedding).  With no argument
it issues GET to the base endpoint and takes the collection branch; with any
present identifier — including the falsy identifiers numeric 0 and the empty
string — it issues GET to endpoint/id and takes the single-entity branch. -/
theorem C3_read_dispatch {DTO : Type}
    (cfg : CrudServiceCfg) (toJson : DTO → String)
    (toJsonAll : List DTO → String) (oneOutcome : HttpOutcome DTO)
    (allOutcome : HttpOutcome (List DTO))
    (po : HttpOutcome ProductDTO) (pa : HttpOutcome (List ProductDTO)) :
    (CrudService.read cfg toJson toJsonAll none oneOutcome allOutcome).isAll
      = true ∧
    (CrudService.read cfg toJson toJsonAll none oneOutcome allOutcome).req =
      { method := .get, url := cfg.endpoint, body := none } ∧
    (∀ id : EntityId,
      (CrudService.read cfg toJson toJsonAll (some id) oneOutcome allOutcome).isAll
        = false ∧
      (CrudService.read cfg toJson toJsonAll (some id) oneOutcome allOutcome).req =
        { method := .get, url := cfg.endpoint ++ "/" ++ id.render,
          body := none }) ∧
    (CrudService.read sampleCfg productToJson productListToJson
      (some (.num 0)) po pa).req.url = "api/products/0" ∧
    (CrudService.read sampleCfg productToJson productListToJson
      (some (.num 0)) po pa).isAll = false ∧
    (CrudService.read sampleCfg productToJson productListToJson
      (some (.str "")) po pa).req.url = "api/products/" ∧
    (CrudService.read sampleCfg productToJson productListToJson
      (some (.str "")) po pa).isAll = false :=
  ⟨rfl, rfl, fun _ => ⟨rfl, rfl⟩, rfl, rfl, rfl, rfl⟩

/-- C6: Every envelope built by CrudService.createResponse is the
four-field structure with the given status (success or error), code, message
and payload; but the interface CrudConsumerResponse as DECLARED in
crud-consumer.pattern.ts has only the three fields status, message, payload —
a declared response is fully determined by those three, and two built
responses that differ only in their code collapse to the same declared value,
so the declared public type and the values built by createResponse do NOT
agree on the shape: the code field is missing from the declared interface. -/
theorem C6_envelope_code_field_mismatch :
    (∀ (P : Type) (cfg : CrudServiceCfg) (s : CrudStatus) (c m : String)
      (p : Option P),
      (CrudService.createResponse cfg s c m p).1 =
        { status := s, code := c, message := m, payload := p }) ∧
    (∀ (P : Type) (d : CrudConsumerResponse P),
      d = { status := d.status, message := d.message, payload := d.payload }) ∧
    (∃ r₁ r₂ : CrudBuiltResponse Nat,
      r₁.toDeclared = r₂.toDeclared ∧ r₁ ≠ r₂) :=
  ⟨fun _ _ _ _ _ _ => rfl, fun _ _ => rfl,
    ⟨{ status := .success, code := "CRUD.CREATE.SUCCESS",
        message := "m", payload := none },
      { status := .success, code := "CRUD.READ.SUCCESS",
        message := "m", payload := none },
      rfl, by decide⟩⟩

/-- C8: For every mutation whose tag is not handled by the switch in
ProductFacade.compute — that is, ADD_PRODUCT and UPDATE_PRODUCT, the declared
but unimplemented mutations — compute performs no CRUD call, prints exactly
the unknown-mutation warning, and leaves the data value exactly unchanged,
whatever the prior state.  (The embedding is total, so no error surfaces.) -/
theorem C8_unknown_mutation_is_noop (env : ProductServiceEnv)
    (data : List ProductDTO) (p : ProductDTO) :
    ProductFacade.compute env data (.ADD_PRODUCT p) =
      { data := data, warnings := ["Unknown mutation type: ADD_PRODUCT"],
        crudCalls := [] } ∧
    ProductFacade.compute env data (.UPDATE_PRODUCT p) =
      { data := data, warnings := ["Unknown mutation type: UPDATE_PRODUCT"],
        crudCalls := [] } :=
  ⟨rfl, rfl⟩

/-- C10: The facade's reactive value is always a list (its type in the
embedding), initialized to the empty list; READ_ALL_PRODUCT sets the data to
the envelope's payload with `?? []` as the default, so when the service's
read() fails — producing an error envelope whose payload is null — the data
is reset to the empty list rather than left null. -/
theorem C10_facade_data_invariant :
    ProductFacade.initialData = [] ∧
    (∀ (env : ProductServiceEnv) (data : List ProductDTO),
      (ProductFacade.compute env data .READ_ALL_PRODUCT).data =
        env.readAllResp.payload.getD []) ∧
    (∀ (cfg : CrudServiceCfg) (toJsonAll : List ProductDTO → String)
      (msg : String) (dOracle : ProductDTO → CrudBuiltResponse ProductDTO)
      (data : List ProductDTO),
      (ProductFacade.compute
        { readAllResp := (CrudService.request cfg toJsonAll (.err msg)
            { success := CrudMeta.success.readAll
                { entity := some cfg.entityName },
              error := CrudMeta.error.readAll
                { entity := some cfg.entityName } }).1,
          deleteResp := dOracle } data .READ_ALL_PRODUCT).data = []) :=
  ⟨rfl, fun _ _ => rfl, fun _ _ _ _ _ => rfl⟩

/-- Any envelope produced by request whose payload is non-null came from the
success branch (the error branch always sets a null payload). -/
theorem CrudService.request_success_of_payload {T : Type}
    (cfg : CrudServiceCfg) (toJson : T → String) (outcome : HttpOutcome T)
    (meta : CrudMetaPair) :
    (CrudService.request cfg toJson outcome meta).1.payload ≠ none →
    (CrudService.request cfg toJson outcome meta).1.status = .success := by
  cases outcome with
  | ok body => intro _; rfl
  | err m => intro h; exact absurd rfl h

/-- C2 counterexample: a create call whose HTTP request resolves with a null
body — the backend answered an empty/null body — yields an envelope with
status success and payload null, so the claimed equivalence (payload non-null
iff status success, including the null-body case) is false on the code. -/
theorem C2_counterexample_null_body :
    (CrudService.create sampleCfg productToJson []
      ((.ok none) : HttpOutcome ProductDTO)).response.status = .success ∧
    (CrudService.create sampleCfg productToJson []
      ((.ok none) : HttpOutcome ProductDTO)).response.payload = none ∧
    ¬ ((CrudService.create sampleCfg productToJson []
        ((.ok none) : HttpOutcome ProductDTO)).response.payload ≠ none ↔
      (CrudService.create sampleCfg productToJson []
        ((.ok none) : HttpOutcome ProductDTO)).response.status = .success) := by
  refine ⟨rfl, rfl, fun h => absurd rfl (h.mpr rfl)⟩

/-- C2 amended: if the underlying HTTP request resolves with a NON-NULL body,
every CRUD operation returns an envelope with status success whose payload is
that body; and conversely any envelope with a non-null payload has status
success.  (When the backend resolves with a null body the envelope has status
success with payload null, so the unqualified iff of the claim fails there —
see the counterexample.) -/
theorem C2_success_envelope {DTO : Type} [WithUniqueId DTO]
    (cfg : CrudServiceCfg) (toJson : DTO → String)
    (toJsonAll : List DTO → String) (data : JsRecord) (target : DTO)
    (id : EntityId) (v : DTO) (l : List DTO) (tgt : Option EntityId)
    (o : HttpOutcome DTO) (oa : HttpOutcome (List DTO)) :
    ((CrudService.create cfg toJson data (.ok (some v))).response.status
        = .success ∧
      (CrudService.create cfg toJson data (.ok (some v))).response.payload
        = some v) ∧
    ((CrudService.read cfg toJson toJsonAll (some id) (.ok (some v)) oa).respStatus
        = .success ∧
      (CrudService.read cfg toJson toJsonAll (some id) (.ok (some v)) oa).payloadIsNull
        = false) ∧
    ((CrudService.read cfg toJson toJsonAll none o (.ok (some l))).respStatus
        = .success ∧
      (CrudService.read cfg toJson toJsonAll none o (.ok (some l))).payloadIsNull
        = false) ∧
    ((CrudService.update cfg toJson target data (.ok (some v))).response.status
        = .success ∧
      (CrudService.update cfg toJson target data (.ok (some v))).response.payload
        = some v) ∧
    ((CrudService.delete cfg toJson target (.ok (some v))).response.status
        = .success ∧
      (CrudService.delete cfg toJson target (.ok (some v))).response.payload
        = some v) ∧
    ((CrudService.create cfg toJson data o).response.payload ≠ none →
      (CrudService.create cfg toJson data o).response.status = .success) ∧
    ((CrudService.update cfg toJson target data o).response.payload ≠ none →
      (CrudService.update cfg toJson target data o).response.status = .success) ∧
    ((CrudService.delete cfg toJson target o).response.payload ≠ none →
      (CrudService.delete cfg toJson target o).response.status = .success) ∧
    ((CrudService.read cfg toJson toJsonAll tgt o oa).payloadIsNull = false →
      (CrudService.read cfg toJson toJsonAll tgt o oa).respStatus = .success) := by
  refine ⟨⟨rfl, rfl⟩, ⟨rfl, rfl⟩, ⟨rfl, rfl⟩, ⟨rfl, rfl⟩, ⟨rfl, rfl⟩,
    ?_, ?_, ?_, ?_⟩
  · exact fun h => CrudService.request_success_of_payload cfg toJson o _ h
  · exact fun h => CrudService.request_success_of_payload cfg toJson o _ h
  · exact fun h => CrudService.request_success_of_payload cfg toJson o _ h
  · cases tgt with
    | some i =>
        cases o with
        | ok body => intro _; rfl
        | err m => intro h; exact Bool.noConfusion h
    | none =>
        cases oa with
        | ok body => intro _; rfl
        | err m => intro h; exact Bool.noConfusion h

/-- C2 witness: the converse direction of the amended claim applied to a
concrete successful create call with a non-null payload. -/
theorem C2_success_envelope_witness :
    (CrudService.create sampleCfg productToJson []
      (.ok (some (ProductDTO.mk 1 "A")))).response.status = .success :=
  (C2_success_envelope sampleCfg productToJson productListToJson []
    (ProductDTO.mk 1 "A") (.num 1) (ProductDTO.mk 1 "A") [] none
    (.ok (some (ProductDTO.mk 1 "A")))
    (.ok (some []))).2.2.2.2.2.1 (by decide)

/-- C4 counterexample: with a non-empty prior list, a READ_ALL_PRODUCT
mutation whose read() resolved to an error envelope (payload null) sets the
data to the empty list — the data changes although the envelope was not a
success, refuting the claim that an error envelope always leaves data
untouched. -/
theorem C4_counterexample_read_error_changes_data :
    sampleEnv.readAllResp.status = .error ∧
    (ProductFacade.compute sampleEnv [ProductDTO.mk 1 "A"]
      .READ_ALL_PRODUCT).data = [] ∧
    (ProductFacade.compute sampleEnv [ProductDTO.mk 1 "A"]
      .READ_ALL_PRODUCT).data ≠ [ProductDTO.mk 1 "A"] := by
  refine ⟨rfl, rfl, ?_⟩
  decide

/-- C4 amended: only the REMOVE_PRODUCT branch guards its state update on a
success envelope — on any non-success delete envelope the data is exactly
unchanged; the READ_ALL_PRODUCT branch unconditionally overwrites the data
with the payload of the read envelope defaulted to the empty list, so an
error envelope there resets the data to the empty list instead of leaving it
unchanged. -/
theorem C4_amended_only_remove_is_guarded :
    (∀ (env : ProductServiceEnv) (data : List ProductDTO) (p : ProductDTO),
      (env.deleteResp p).status ≠ .success →
      (ProductFacade.compute env data (.REMOVE_PRODUCT p)).data = data) ∧
    (∀ (env : ProductServiceEnv) (data : List ProductDTO),
      (ProductFacade.compute env data .READ_ALL_PRODUCT).data =
        env.readAllResp.payload.getD []) := by
  constructor
  · intro env data p h
    simp only [ProductFacade.compute]
    rw [if_neg h]
  · intro env data
    rfl

/-- C4 witness: the guarded REMOVE_PRODUCT branch of the amended claim,
applied to a concrete environment in which delete fails: the data is
unchanged. -/
theorem C4_amended_only_remove_is_guarded_witness :
    (ProductFacade.compute sampleEnvDeleteError [ProductDTO.mk 1 "A"]
      (.REMOVE_PRODUCT (ProductDTO.mk 1 "A"))).data = [ProductDTO.mk 1 "A"] :=
  C4_amended_only_remove_is_guarded.1 sampleEnvDeleteError
    [ProductDTO.mk 1 "A"] (ProductDTO.mk 1 "A") (by decide)

/-- C5 counterexample: update forwards its data argument verbatim as the PUT
body — the `Partial Omit` restriction exists only in the type system — so a
runtime value carrying an id property reaches the wire: here the outgoing
body contains the key id, refuting the claim that it never does. -/
theorem C5_counterexample_id_in_body :
    (((CrudService.update sampleCfg productToJson (ProductDTO.mk 7 "X")
        [("id", JsPrim.num 99), ("name", JsPrim.str "Y")]
        (.ok (some (ProductDTO.mk 7 "Y")))).req.body.getD []).any
      (fun kv => kv.1 == "id")) = true := by decide

/-- C5 amended: update issues a PUT to endpoint/target.id — the identifier of
the target is used only to build the URL — and the outgoing body is exactly
the data argument, with no runtime stripping of the id field: the identifier
is absent from the body exactly when the caller passes a data value without
an id key (which is what the static type enforces for well-typed callers). -/
theorem C5_update_sends_data_verbatim {DTO : Type} [WithUniqueId DTO]
    (cfg : CrudServiceCfg) (toJson : DTO → String) (target : DTO)
    (data : JsRecord) (outcome : HttpOutcome DTO) :
    (CrudService.update cfg toJson target data outcome).req =
      { method := .put,
        url := cfg.endpoint ++ "/" ++ (WithUniqueId.uid target).render,
        body := some data } ∧
    (data.all (fun kv => kv.1 != "id") = true →
      (((CrudService.update cfg toJson target data outcome).req.body.getD
        []).all (fun kv => kv.1 != "id")) = true) :=
  ⟨rfl, fun h => h⟩

/-- C5 witness: the amended claim applied to a concrete update whose data
argument has no id key: the outgoing body has none either. -/
theorem C5_update_sends_data_verbatim_witness :
    (((CrudService.update sampleCfg productToJson (ProductDTO.mk 7 "X")
        [("name", JsPrim.str "Y")]
        (.ok (some (ProductDTO.mk 7 "Y")))).req.body.getD []).all
      (fun kv => kv.1 != "id")) = true :=
  (C5_update_sends_data_verbatim sampleCfg productToJson (ProductDTO.mk 7 "X")
    [("name", JsPrim.str "Y")] (.ok (some (ProductDTO.mk 7 "Y")))).2 (by decide)

/-- C7: whenever the delete envelope for an entity reports success,
dispatching REMOVE_PRODUCT with that entity leaves a data list in which every
remaining element has an id different from the deleted id — no element with
that id remains, for every prior facade list state. -/
theorem C7_remove_product_removes_id (env : ProductServiceEnv)
    (prior : List ProductDTO) (e : ProductDTO)
    (h : (env.deleteResp e).status = .success) :
    ((ProductFacade.compute env prior (.REMOVE_PRODUCT e)).data.all
      (fun q => q.id != e.id)) = true := by
  have hd : (ProductFacade.compute env prior (.REMOVE_PRODUCT e)).data =
      prior.filter (fun p => p.id != e.id) := by
    simp only [ProductFacade.compute]
    rw [if_pos h]
  rw [hd, List.all_eq_true]
  intro q hq
  exact (List.mem_filter.mp hq).2

/-- C7 witness: for the spec example entity with id one in a concrete prior
list and a succeeding delete, the resulting list has no element with that
id. -/
theorem C7_remove_product_removes_id_witness :
    ((ProductFacade.compute sampleEnv
      [ProductDTO.mk 1 "A", ProductDTO.mk 2 "B"]
      (.REMOVE_PRODUCT (ProductDTO.mk 1 "A"))).data.all
      (fun q => q.id != (ProductDTO.mk 1 "A").id)) = true :=
  C7_remove_product_removes_id sampleEnv
    [ProductDTO.mk 1 "A", ProductDTO.mk 2 "B"] (ProductDTO.mk 1 "A")
    (by decide)

/-- C9: logging is observation only — two runs of any CRUD operation that
differ only in whether a logger is configured issue the same HTTP request and
resolve to the same envelope (same status, code, message and payload); and
with no logger configured the operation emits no log line and still returns
its envelope normally (the embedding of each operation is a total function,
so the absence of a logger cannot make it throw). -/
theorem C9_logger_noninterference {DTO : Type} [WithUniqueId DTO]
    (endpoint entityName : String) (b₁ b₂ : Bool) (toJson : DTO → String)
    (toJsonAll : List DTO → String) (data : JsRecord) (target : DTO)
    (tgt : Option EntityId) (o : HttpOutcome DTO)
    (oa : HttpOutcome (List DTO)) :
    (CrudService.create
        { endpoint := endpoint, entityName := entityName, hasLogger := b₁ }
        toJson data o).withoutLogs =
      (CrudService.create
        { endpoint := endpoint, entityName := entityName, hasLogger := b₂ }
        toJson data o).withoutLogs ∧
    (CrudService.read
        { endpoint := endpoint, entityName := entityName, hasLogger := b₁ }
        toJson toJsonAll tgt o oa).withoutLogs =
      (CrudService.read
        { endpoint := endpoint, entityName := entityName, hasLogger := b₂ }
        toJson toJsonAll tgt o oa).withoutLogs ∧
    (CrudService.update
        { endpoint := endpoint, entityName := entityName, hasLogger := b₁ }
        toJson target data o).withoutLogs =
      (CrudService.update
        { endpoint := endpoint, entityName := entityName, hasLogger := b₂ }
        toJson target data o).withoutLogs ∧
    (CrudService.delete
        { endpoint := endpoint, entityName := entityName, hasLogger := b₁ }
        toJson target o).withoutLogs =
      (CrudService.delete
        { endpoint := endpoint, entityName := entityName, hasLogger := b₂ }
        toJson target o).withoutLogs ∧
    (CrudService.create
        { endpoint := endpoint, entityName := entityName, hasLogger := false }
        toJson data o).logs = [] ∧
    (CrudService.read
        { endpoint := endpoint, entityName := entityName, hasLogger := false }
        toJson toJsonAll tgt o oa).logs = [] ∧
    (CrudService.update
        { endpoint := endpoint, entityName := entityName, hasLogger := false }
        toJson target data o).logs = [] ∧
    (CrudService.delete
        { endpoint := endpoint, entityName := entityName, hasLogger := false }
        toJson target o).logs = [] := by
  refine ⟨?_, ?_, ?_, ?_, ?_, ?_, ?_, ?_⟩
  all_goals cases tgt <;> cases o <;> cases oa <;> rfl
